import Mathlib

/-!
Verification of the Rhyl car-boot site server and client.

The server keeps three JSON documents on disk — site status,
gallery list, hero background record — plus two upload directories, and
exposes read endpoints and three password-guarded mutation endpoints.
We embed the relevant functions shallowly:

* a backing file is `FileState α`: missing, corrupt (unparsable or
  unreadable), or valid with a parsed record;
* `readStatus` / `readGallery` / `readHeroBackground` and the matching
  write helpers mirror the helper functions of the server;
* `storeGalleryImage`, `storeHeroImage`, `updateStatus` embed the three
  POST route handlers together with the multer middleware that runs in
  front of them (MIME filter, disk write of the incoming file);
* `getRefreshInterval` embeds the client's battery-aware refresh-interval
  function.

Timestamps are abstracted as natural numbers supplied by the caller
(`new Date()` at the moment of the call); disk-write outcomes are
explicit boolean parameters so that failure paths can be stated.
-/

/-- A client-supplied JSON/form value, as seen in `req.body` fields.
Only the shapes relevant to the update-status route are modelled. -/
inductive JsVal where
  | str (s : String)
  | bool (b : Bool)
  | num (n : Int)
  | null
  | undef
deriving DecidableEq, Repr

/-- The status document `status.json`:
`{ status: bool, notice: string, lastUpdated: timestamp }`. -/
structure StatusRecord where
  status : Bool
  notice : String
  lastUpdated : Nat
deriving DecidableEq, Repr

/-- One gallery image's metadata, as pushed by the upload-gallery route. -/
structure ImageEntry where
  filename : String
  originalName : String
  description : String
  uploadedAt : Nat
deriving DecidableEq, Repr

/-- The gallery document `gallery.json`: `{ images: [...] }`. -/
structure GalleryRecord where
  images : List ImageEntry
deriving DecidableEq, Repr

/-- The hero document `hero-background.json`. The default on disk is
`{ filename: null, uploadedAt: null }` (no `originalName` key), so every
field is optional. -/
structure HeroRecord where
  filename : Option String
  originalName : Option String
  uploadedAt : Option Nat
deriving DecidableEq, Repr

/-- State of a backing JSON file as observed by `fs.readFile` + `JSON.parse`:
the file may be absent, unreadable-or-unparsable, or hold a parsed record. -/
inductive FileState (α : Type) where
  | missing
  | corrupt
  | valid (v : α)
deriving DecidableEq, Repr

/-- Whole observable server state: the three backing documents and the
names present in the two upload directories. -/
structure ServerState where
  statusFile : FileState StatusRecord
  galleryFile : FileState GalleryRecord
  heroFile : FileState HeroRecord
  galleryDir : List String
  heroDir : List String
deriving DecidableEq, Repr

/-- The default status record substituted by `readStatus` on any read
failure: `{ status: false, notice: '', lastUpdated: new Date() }`. -/
def defaultStatus (now : Nat) : StatusRecord :=
  { status := false, notice := "", lastUpdated := now }

/-- The default gallery record `{ images: [] }`. -/
def defaultGallery : GalleryRecord := { images := [] }

/-- The default hero record `{ filename: null, uploadedAt: null }`. -/
def defaultHero : HeroRecord :=
  { filename := none, originalName := none, uploadedAt := none }

/-- `readStatus()`: parse the backing file; on missing file, parse failure
or I/O error return the default record.  Total: no error escapes. -/
def readStatus (f : FileState StatusRecord) (now : Nat) : StatusRecord :=
  match f with
  | .valid v => v
  | _ => defaultStatus now

/-- `writeStatus(data)`: stamp `lastUpdated` with the current time, write
the whole record to the file (unconditionally replacing its previous
content) and return the written record. -/
def writeStatus (status : Bool) (notice : String) (now : Nat) :
    FileState StatusRecord × StatusRecord :=
  let r : StatusRecord := { status := status, notice := notice, lastUpdated := now }
  (.valid r, r)

/-- `readGallery()`: same fallback shape, default `{ images: [] }`. -/
def readGallery (f : FileState GalleryRecord) : GalleryRecord :=
  match f with
  | .valid v => v
  | _ => defaultGallery

/-- `writeGallery(data)`: whole-document replacement, returns the data. -/
def writeGallery (g : GalleryRecord) : FileState GalleryRecord × GalleryRecord :=
  (.valid g, g)

/-- `readHeroBackground()`: fallback to the null hero record. -/
def readHeroBackground (f : FileState HeroRecord) : HeroRecord :=
  match f with
  | .valid v => v
  | _ => defaultHero

/-- `writeHeroBackground(data)`: whole-document replacement. -/
def writeHeroBackground (h : HeroRecord) : FileState HeroRecord × HeroRecord :=
  (.valid h, h)

/-- The admin-secret comparison `req.body.password !== ADMIN_PASSWORD`
(`===`-style strict equality; an absent field compares unequal). -/
def authorize (secret : String) (supplied : Option String) : Bool :=
  match supplied with
  | some s => decide (s = secret)
  | none => false

/-- JavaScript `String.prototype.startsWith`, used by the multer MIME
filter `file.mimetype.startsWith('image/')`. -/
def jsStartsWith (s p : String) : Bool :=
  decide (s.data.take p.data.length = p.data)

/-- Index of the last `'.'` in the character list that is not at index 0,
scanning with the given start index; `path.extname` ignores a dot that
begins the name (`'.bashrc'` has no extension). -/
def lastDotAux : Nat → List Char → Option Nat
  | _, [] => none
  | i, c :: cs =>
    match lastDotAux (i + 1) cs with
    | some j => some j
    | none => if c = '.' ∧ i ≠ 0 then some i else none

/-- Node's `path.extname(name)`: the suffix from the last dot on
(including the dot), empty when there is no such dot. -/
def extname (name : String) : String :=
  match lastDotAux 0 name.data with
  | none => ""
  | some i => ⟨name.data.drop i⟩

/-- The errors a mutation route can answer with, one per distinct error
response of the server (`Unauthorized` 401, `No file uploaded` 400,
multer's `Only image files allowed`, `Gallery full (10 max)` 400, and the
catch-all 500 `Upload failed` for a failed disk write). -/
inductive UploadError where
  | Unauthorized
  | NoFile
  | RejectedUpload
  | GalleryFull
  | StorageError
deriving DecidableEq, Repr

/-- Outcome of a mutation route: success payload or error response. -/
inductive UpResult (α : Type) where
  | ok (v : α)
  | err (e : UploadError)
deriving DecidableEq, Repr

/-- The file part multer extracts from a multipart request. -/
structure FilePart where
  mimetype : String
  originalname : String
deriving DecidableEq, Repr

/-- Writing a file into a directory: the path either appears or, when a
file of that name already exists, is overwritten in place. -/
def insertFile (dir : List String) (fname : String) : List String :=
  if fname ∈ dir then dir else fname :: dir

/-- The gallery storage filename callback:
`'gallery-' + uniqueSuffix + path.extname(file.originalname)` where the
unique suffix is `Date.now() + '-' + random`. -/
def galleryName (uniq origName : String) : String :=
  "gallery-" ++ uniq ++ extname origName

/-- The hero storage filename callback:
`'hero-background' + path.extname(file.originalname)` — fixed up to the
extension. -/
def heroName (origName : String) : String :=
  "hero-background" ++ extname origName

/-- `POST /admin/upload-gallery`.  The multer middleware runs first: the
MIME filter rejects non-images before anything touches disk, then the
incoming file is written to the gallery directory under
`'gallery-' + uniqueSuffix + path.extname(originalname)`.  The handler
then checks the password, reads the gallery document, refuses with
`Gallery full (10 max)` at 10 or more entries (unlinking the file it just
received), otherwise appends the new entry and persists the document.
`imgWriteOk` / `metaWriteOk` say whether the two disk writes succeed. -/
def storeGalleryImage (secret : String) (s : ServerState) (password : Option String)
    (file : Option FilePart) (description : Option String) (uniqueSuffix : String)
    (now : Nat) (imgWriteOk metaWriteOk : Bool) : ServerState × UpResult ImageEntry :=
  match file with
  | none =>
    -- no file part: multer writes nothing; the handler checks the
    -- password first and only then `!req.file`
    if authorize secret password then (s, .err .NoFile) else (s, .err .Unauthorized)
  | some f =>
    if jsStartsWith f.mimetype "image/" then
      if imgWriteOk then
        let fname := galleryName uniqueSuffix f.originalname
        let s1 := { s with galleryDir := insertFile s.galleryDir fname }
        if authorize secret password then
          let g := readGallery s1.galleryFile
          if g.images.length ≥ 10 then
            ({ s1 with galleryDir := s1.galleryDir.erase fname }, .err .GalleryFull)
          else
            let entry : ImageEntry :=
              { filename := fname, originalName := f.originalname,
                description := description.getD "", uploadedAt := now }
            if metaWriteOk then
              ({ s1 with
                  galleryFile := (writeGallery { images := g.images ++ [entry] }).1 },
               .ok entry)
            else (s1, .err .StorageError)
        else (s1, .err .Unauthorized)
      else (s, .err .StorageError)
    else (s, .err .RejectedUpload)

/-- `POST /admin/upload-hero`.  Same shape as the gallery route, except
the file name is the fixed `'hero-background' + path.extname(originalname)`
and the hero document is replaced wholesale (no count limit). -/
def storeHeroImage (secret : String) (s : ServerState) (password : Option String)
    (file : Option FilePart) (now : Nat) (imgWriteOk metaWriteOk : Bool) :
    ServerState × UpResult HeroRecord :=
  match file with
  | none =>
    if authorize secret password then (s, .err .NoFile) else (s, .err .Unauthorized)
  | some f =>
    if jsStartsWith f.mimetype "image/" then
      if imgWriteOk then
        let fname := heroName f.originalname
        let s1 := { s with heroDir := insertFile s.heroDir fname }
        if authorize secret password then
          let hero : HeroRecord :=
            { filename := some fname, originalName := some f.originalname,
              uploadedAt := some now }
          if metaWriteOk then
            ({ s1 with heroFile := (writeHeroBackground hero).1 }, .ok hero)
          else (s1, .err .StorageError)
        else (s1, .err .Unauthorized)
      else (s, .err .StorageError)
    else (s, .err .RejectedUpload)

/-- Coercion of the submitted `status` body field:
`status === 'true' || status === true`. -/
def coerceStatus (v : JsVal) : Bool :=
  decide (v = .str "true") || decide (v = .bool true)

/-- Coercion of the submitted `notice` body field: `notice || ''`
(the field is a string when present; absent stores the empty string). -/
def coerceNotice (n : Option String) : String :=
  n.getD ""

/-- `POST /admin/update-status`: password check, then
`writeStatus({ status: status === 'true' || status === true,
notice: notice || '' })`. -/
def updateStatus (secret : String) (s : ServerState) (password : Option String)
    (status : JsVal) (notice : Option String) (now : Nat) :
    ServerState × UpResult StatusRecord :=
  if authorize secret password then
    let w := writeStatus (coerceStatus status) (coerceNotice notice) now
    ({ s with statusFile := w.1 }, .ok w.2)
  else (s, .err .Unauthorized)

/-- The interval the low-battery branch of the client's
`getRefreshInterval` computes inside the `navigator.getBattery().then`
callback: `battery.level < 0.2 ? 60000 : 30000`. -/
def batteryInterval (level : ℚ) : Nat :=
  if level < 1 / 5 then 60000 else 30000

/-- The client's `getRefreshInterval()`.  The first component is the
function's actual (synchronous) return value
`isSlowConnection ? 45000 : 30000`; the second records the value the
promise callback computes and returns into the void — `some` exactly when
`'getBattery' in navigator`. -/
def getRefreshInterval (isSlowConnection hasGetBattery : Bool) (batteryLevel : ℚ) :
    Nat × Option Nat :=
  ((if isSlowConnection then 45000 else 30000),
   if hasGetBattery then some (batteryInterval batteryLevel) else none)

/-- The polling interval the `DOMContentLoaded` handler passes to
`setInterval(loadSettings, refreshInterval)`: just the return value of
`getRefreshInterval()`. -/
def pollingInterval (isSlowConnection hasGetBattery : Bool) (batteryLevel : ℚ) : Nat :=
  (getRefreshInterval isSlowConnection hasGetBattery batteryLevel).1

/-- A fresh server before `initializeDataFiles` has run: no backing files
and empty upload directories.  Used as a concrete test fixture. -/
def emptyState : ServerState :=
  { statusFile := .missing, galleryFile := .missing, heroFile := .missing,
    galleryDir := [], heroDir := [] }

/-- A server whose gallery document already holds ten entries.  Used as a
concrete test fixture for the gallery limit. -/
def fullGalleryState : ServerState :=
  { emptyState with
      galleryFile := .valid
        { images := List.replicate 10
            { filename := "gallery-0.jpg", originalName := "old.jpg",
              description := "", uploadedAt := 0 } } }

theorem insertFile_self_mem (dir : List String) (fname : String) :
    fname ∈ insertFile dir fname := by
  unfold insertFile
  split
  · assumption
  · exact List.mem_cons_self _ _

theorem insertFile_fresh {dir : List String} {fname : String} (h : fname ∉ dir) :
    insertFile dir fname = fname :: dir :=
  if_neg h

/-- C2: `readStatus` is total over file-system outcomes — for every
backing-file state in which the status file is missing, unparsable or
unreadable it returns the default record
`{ isOpen: false, notice: "", lastUpdated: now }`; being a total Lean
function, it raises nothing to the caller. -/
theorem readStatus_total_default (f : FileState StatusRecord) (now : Nat)
    (h : f = .missing ∨ f = .corrupt) :
    readStatus f now = defaultStatus now := by
  rcases h with h | h <;> subst h <;> rfl

theorem readStatus_total_default_witness :
    readStatus .missing 0 = defaultStatus 0 :=
  readStatus_total_default .missing 0 (Or.inl rfl)

/-- C3: `writeStatus(isOpen, notice)` stamps `lastUpdated` with the
current time, persists the full record unconditionally and returns it;
a subsequent `readStatus` (at any time `t`) returns the just-written
fields with a `lastUpdated` at least the time observed before the call. -/
theorem writeStatus_then_read (b : Bool) (n : String) (tBefore now t : Nat)
    (h : tBefore ≤ now) :
    (writeStatus b n now).2 = { status := b, notice := n, lastUpdated := now } ∧
    (writeStatus b n now).1 = .valid (writeStatus b n now).2 ∧
    readStatus (writeStatus b n now).1 t = (writeStatus b n now).2 ∧
    (readStatus (writeStatus b n now).1 t).status = b ∧
    (readStatus (writeStatus b n now).1 t).notice = n ∧
    tBefore ≤ (readStatus (writeStatus b n now).1 t).lastUpdated :=
  ⟨rfl, rfl, rfl, rfl, rfl, h⟩

theorem writeStatus_then_read_witness :
    (readStatus (writeStatus true "closed for rain" 5).1 7).status = true ∧
    (readStatus (writeStatus true "closed for rain" 5).1 7).notice = "closed for rain" ∧
    3 ≤ (readStatus (writeStatus true "closed for rain" 5).1 7).lastUpdated :=
  ⟨(writeStatus_then_read true "closed for rain" 3 5 7 (by decide)).2.2.2.1,
   (writeStatus_then_read true "closed for rain" 3 5 7 (by decide)).2.2.2.2.1,
   (writeStatus_then_read true "closed for rain" 3 5 7 (by decide)).2.2.2.2.2⟩

/-- C6: `authorize` accepts exactly the configured secret and nothing
else — not an absent secret, not the secret with trailing whitespace,
and not the empty string (unless the configured secret is itself empty,
in which case the empty string is the correct value). -/
theorem authorize_exact_match (secret : String) (supplied : Option String) :
    (authorize secret supplied = true ↔ supplied = some secret) ∧
    authorize secret none = false ∧
    authorize secret (some (secret ++ " ")) = false ∧
    (secret ≠ "" → authorize secret (some "") = false) := by
  refine ⟨?_, rfl, ?_, ?_⟩
  · cases supplied with
    | none => simp [authorize]
    | some s => simp [authorize]
  · have hne : secret ++ " " ≠ secret := by
      intro hEq
      have h2 := congrArg String.length hEq
      rw [String.length_append] at h2
      have h3 : " ".length = 1 := rfl
      omega
    simp [authorize, hne]
  · intro hne
    simp [authorize]
    exact fun hEq => hne hEq.symm

theorem authorize_exact_match_witness :
    authorize "noblesrhyl1121" (some "noblesrhyl1121") = true ∧
    authorize "noblesrhyl1121" none = false ∧
    authorize "noblesrhyl1121" (some ("noblesrhyl1121" ++ " ")) = false ∧
    authorize "noblesrhyl1121" (some "") = false :=
  ⟨(authorize_exact_match "noblesrhyl1121" (some "noblesrhyl1121")).1.mpr rfl,
   (authorize_exact_match "noblesrhyl1121" none).2.1,
   (authorize_exact_match "noblesrhyl1121" none).2.2.1,
   (authorize_exact_match "noblesrhyl1121" none).2.2.2 (by decide)⟩

/-- C7: for each of the three documents, reading a missing backing file
yields the documented default, and writing that default back then reading
returns the identical record (`t` is both the read time of the default and
the write time; `u` is any later read time). -/
theorem defaults_round_trip (t u : Nat) :
    readStatus .missing t = defaultStatus t ∧
    readGallery .missing = defaultGallery ∧
    readHeroBackground .missing = defaultHero ∧
    readStatus (writeStatus (defaultStatus t).status (defaultStatus t).notice t).1 u
      = defaultStatus t ∧
    readGallery (writeGallery defaultGallery).1 = defaultGallery ∧
    readHeroBackground (writeHeroBackground defaultHero).1 = defaultHero :=
  ⟨rfl, rfl, rfl, rfl, rfl, rfl⟩

/-- C9: the client's `getRefreshInterval` returns the synchronous default
`isSlowConnection ? 45000 : 30000`; the value computed inside the
`getBattery` promise callback never influences the polling interval (the
return value is independent of battery availability and level), and on a
low battery the discarded callback value (60000) differs from every value
the polling interval can take. -/
theorem getRefreshInterval_discards_battery (slow hb hb' : Bool) (lvl lvl' : ℚ) :
    pollingInterval slow hb lvl = (if slow then 45000 else 30000) ∧
    pollingInterval slow hb lvl = pollingInterval slow hb' lvl' ∧
    (getRefreshInterval slow true lvl).2 = some (batteryInterval lvl) ∧
    (lvl < 1 / 5 →
      (getRefreshInterval slow true lvl).2 = some 60000 ∧
      pollingInterval slow true lvl ≠ 60000) := by
  refine ⟨rfl, rfl, rfl, fun hlow => ⟨?_, ?_⟩⟩
  · have hbat : batteryInterval lvl = 60000 := if_pos hlow
    simp [getRefreshInterval, hbat]
  · cases slow <;> simp [pollingInterval, getRefreshInterval]

theorem getRefreshInterval_discards_battery_witness :
    pollingInterval false true (1 / 10) = 30000 ∧
    (getRefreshInterval false true (1 / 10)).2 = some 60000 ∧
    pollingInterval false true (1 / 10) ≠ 60000 :=
  ⟨(getRefreshInterval_discards_battery false true true (1 / 10) (1 / 10)).1,
   ((getRefreshInterval_discards_battery false true true (1 / 10) (1 / 10)).2.2.2
      (by norm_num)).1,
   ((getRefreshInterval_discards_battery false true true (1 / 10) (1 / 10)).2.2.2
      (by norm_num)).2⟩

theorem coerceStatus_iff (v : JsVal) :
    coerceStatus v = true ↔ (v = .str "true" ∨ v = .bool true) := by
  cases v <;> simp [coerceStatus]

/-- C10: the update-status route stores `isOpen` as `true` exactly when
the submitted `status` value is the boolean `true` or the exact string
`'true'`; `'TRUE'`, `'1'`, the number `1` and an absent value all store
`false`, and an absent `notice` stores the empty string. -/
theorem updateStatus_coercion (secret : String) (s : ServerState)
    (password : Option String) (v : JsVal) (n : Option String) (now : Nat)
    (hauth : authorize secret password = true) :
    (updateStatus secret s password v n now).2
      = .ok { status := coerceStatus v, notice := coerceNotice n, lastUpdated := now } ∧
    (updateStatus secret s password v n now).1.statusFile
      = .valid { status := coerceStatus v, notice := coerceNotice n, lastUpdated := now } ∧
    (coerceStatus v = true ↔ (v = .str "true" ∨ v = .bool true)) ∧
    (n = none → coerceNotice n = "") ∧
    coerceStatus (.str "TRUE") = false ∧
    coerceStatus (.str "1") = false ∧
    coerceStatus (.num 1) = false ∧
    coerceStatus .undef = false := by
  refine ⟨?_, ?_, coerceStatus_iff v, ?_, by decide, by decide, by decide, by decide⟩
  · simp [updateStatus, hauth, writeStatus]
  · simp [updateStatus, hauth, writeStatus]
  · intro hn
    subst hn
    rfl

theorem updateStatus_coercion_witness :
    (updateStatus "pw" emptyState (some "pw") (.str "true") none 9).2
      = .ok { status := true, notice := "", lastUpdated := 9 } ∧
    (updateStatus "pw" emptyState (some "pw") (.num 1) none 9).2
      = .ok { status := false, notice := "", lastUpdated := 9 } :=
  ⟨(updateStatus_coercion "pw" emptyState (some "pw") (.str "true") none 9 (by decide)).1,
   (updateStatus_coercion "pw" emptyState (some "pw") (.num 1) none 9 (by decide)).1⟩

/-- C4: a non-image MIME type is rejected by the multer file filter of
both upload routes before anything reaches disk — the result is the
rejection error with the server state (files and all three documents)
completely unchanged. -/
theorem reject_non_image (secret : String) (s : ServerState) (password : Option String)
    (f : FilePart) (d : Option String) (uniq : String) (now : Nat) (iw mw : Bool)
    (h : jsStartsWith f.mimetype "image/" = false) :
    storeGalleryImage secret s password (some f) d uniq now iw mw
      = (s, .err .RejectedUpload) ∧
    storeHeroImage secret s password (some f) now iw mw
      = (s, .err .RejectedUpload) := by
  constructor <;> simp [storeGalleryImage, storeHeroImage, h]

theorem reject_non_image_witness :
    storeGalleryImage "pw" emptyState (some "pw") (some ⟨"text/plain", "a.txt"⟩)
        none "u" 0 true true
      = (emptyState, .err .RejectedUpload) ∧
    storeHeroImage "pw" emptyState (some "pw") (some ⟨"text/plain", "a.txt"⟩) 0 true true
      = (emptyState, .err .RejectedUpload) :=
  reject_non_image "pw" emptyState (some "pw") ⟨"text/plain", "a.txt"⟩ none "u" 0
    true true (by decide)

/-- C5: every hero upload writes to the single fixed filename
`hero-background.<ext>` (extension from the original name) and replaces
the hero document wholesale; after two successive uploads the stored
record is exactly the second upload's record, with no dependence on the
first upload or the prior state — at most one hero entry is ever stored. -/
theorem hero_overwrite (secret : String) (s : ServerState) (password : Option String)
    (f1 f2 : FilePart) (t1 t2 : Nat)
    (hauth : authorize secret password = true)
    (hm1 : jsStartsWith f1.mimetype "image/" = true)
    (hm2 : jsStartsWith f2.mimetype "image/" = true) :
    (storeHeroImage secret (storeHeroImage secret s password (some f1) t1 true true).1
        password (some f2) t2 true true).1.heroFile
      = .valid { filename := some (heroName f2.originalname),
                 originalName := some f2.originalname, uploadedAt := some t2 } ∧
    (storeHeroImage secret (storeHeroImage secret s password (some f1) t1 true true).1
        password (some f2) t2 true true).2
      = .ok { filename := some (heroName f2.originalname),
              originalName := some f2.originalname, uploadedAt := some t2 } ∧
    heroName f2.originalname
      ∈ (storeHeroImage secret (storeHeroImage secret s password (some f1) t1 true true).1
          password (some f2) t2 true true).1.heroDir ∧
    (storeHeroImage secret s password (some f2) t2 true true).2
      = .ok { filename := some (heroName f2.originalname),
              originalName := some f2.originalname, uploadedAt := some t2 } := by
  refine ⟨?_, ?_, ?_, ?_⟩ <;>
    simp [storeHeroImage, hm1, hm2, hauth, writeHeroBackground, insertFile_self_mem]

theorem hero_overwrite_witness :
    (storeHeroImage "pw" (storeHeroImage "pw" emptyState (some "pw")
        (some ⟨"image/jpeg", "a.jpg"⟩) 1 true true).1
        (some "pw") (some ⟨"image/png", "b.png"⟩) 2 true true).1.heroFile
      = .valid { filename := some "hero-background.png",
                 originalName := some "b.png", uploadedAt := some 2 } :=
  (hero_overwrite "pw" emptyState (some "pw") ⟨"image/jpeg", "a.jpg"⟩
    ⟨"image/png", "b.png"⟩ 1 2 (by decide) (by decide) (by decide)).1

/-- C1: the gallery honours its length-at-most-10 invariant.  With a
valid password, an image MIME type and a fresh generated filename, an
upload succeeds while the stored gallery has fewer than 10 entries
(length grows by one); when the gallery already holds 10 entries the
upload fails with the gallery-full error and the whole server state —
stored gallery included — is exactly as before, the just-received file
having been unlinked; and the invariant `length ≤ 10` is preserved. -/
theorem readGallery_valid (g : GalleryRecord) : readGallery (.valid g) = g := rfl

theorem gallery_limit (secret : String) (s : ServerState) (password : Option String)
    (f : FilePart) (d : Option String) (uniq : String) (now : Nat)
    (hauth : authorize secret password = true)
    (hmime : jsStartsWith f.mimetype "image/" = true)
    (hfresh : galleryName uniq f.originalname ∉ s.galleryDir) :
    ((readGallery s.galleryFile).images.length < 10 →
      (storeGalleryImage secret s password (some f) d uniq now true true).2
        = .ok { filename := galleryName uniq f.originalname,
                originalName := f.originalname, description := d.getD "",
                uploadedAt := now } ∧
      (readGallery (storeGalleryImage secret s password (some f) d uniq now
          true true).1.galleryFile).images.length
        = (readGallery s.galleryFile).images.length + 1) ∧
    ((readGallery s.galleryFile).images.length = 10 →
      (storeGalleryImage secret s password (some f) d uniq now true true).2
        = .err .GalleryFull ∧
      (storeGalleryImage secret s password (some f) d uniq now true true).1 = s) ∧
    ((readGallery s.galleryFile).images.length ≤ 10 →
      (readGallery (storeGalleryImage secret s password (some f) d uniq now
          true true).1.galleryFile).images.length ≤ 10) := by
  by_cases hge : (readGallery s.galleryFile).images.length ≥ 10
  · have comp : storeGalleryImage secret s password (some f) d uniq now true true
        = ({ s with galleryDir := ((insertFile s.galleryDir
                (galleryName uniq f.originalname)).erase
                (galleryName uniq f.originalname)) },
           .err .GalleryFull) := by
      simp [storeGalleryImage, hmime, hauth, hge]
    have hstate : ({ s with galleryDir := ((insertFile s.galleryDir
        (galleryName uniq f.originalname)).erase
        (galleryName uniq f.originalname)) } : ServerState) = s := by
      rw [insertFile_fresh hfresh, List.erase_cons_head]
    refine ⟨fun hlt => absurd hge (Nat.not_le.mpr hlt), fun _ => ⟨?_, ?_⟩, fun hle => ?_⟩
    · rw [comp]
    · rw [comp, hstate]
    · rw [comp, hstate]
      exact hle
  · have comp : storeGalleryImage secret s password (some f) d uniq now true true
        = ({ s with
              galleryDir := (insertFile s.galleryDir (galleryName uniq f.originalname)),
              galleryFile := (FileState.valid
                { images := ((readGallery s.galleryFile).images ++
                    [{ filename := galleryName uniq f.originalname,
                       originalName := f.originalname, description := d.getD "",
                       uploadedAt := now }]) }) },
           .ok { filename := galleryName uniq f.originalname,
                 originalName := f.originalname, description := d.getD "",
                 uploadedAt := now }) := by
      simp [storeGalleryImage, hmime, hauth, hge, writeGallery]
    refine ⟨fun _ => ⟨?_, ?_⟩, fun heq => absurd (ge_of_eq heq) hge, fun hle => ?_⟩
    · rw [comp]
    · rw [comp]
      simp [readGallery_valid]
    · rw [comp]
      simp [readGallery_valid]
      omega

theorem gallery_limit_witness :
    ((storeGalleryImage "pw" emptyState (some "pw") (some ⟨"image/jpeg", "a.jpg"⟩)
        (some "sale") "123" 5 true true).2
      = .ok { filename := "gallery-123.jpg", originalName := "a.jpg",
              description := "sale", uploadedAt := 5 } ∧
     (readGallery (storeGalleryImage "pw" emptyState (some "pw")
        (some ⟨"image/jpeg", "a.jpg"⟩) (some "sale") "123" 5
        true true).1.galleryFile).images.length = 1) ∧
    ((storeGalleryImage "pw" fullGalleryState (some "pw") (some ⟨"image/jpeg", "a.jpg"⟩)
        (some "sale") "123" 5 true true).2 = .err .GalleryFull ∧
     (storeGalleryImage "pw" fullGalleryState (some "pw") (some ⟨"image/jpeg", "a.jpg"⟩)
        (some "sale") "123" 5 true true).1 = fullGalleryState) :=
  ⟨(gallery_limit "pw" emptyState (some "pw") ⟨"image/jpeg", "a.jpg"⟩ (some "sale")
      "123" 5 (by decide) (by decide) (by decide)).1 (by decide),
   (gallery_limit "pw" fullGalleryState (some "pw") ⟨"image/jpeg", "a.jpg"⟩ (some "sale")
      "123" 5 (by decide) (by decide) (by decide)).2.1 (by decide)⟩

/-- C8: uploads follow write-then-record ordering and never leave the
store metadata half-updated.  For both routes: on success the file is in
the upload directory and the matching record is in the store; on any
error the stored document is exactly as before; and when the disk write
of an accepted image fails, the outcome is the storage error with the
whole state unchanged. -/
theorem uploads_atomic (secret : String) (s : ServerState) (password : Option String)
    (f : FilePart) (d : Option String) (uniq : String) (now : Nat) (iw mw : Bool) :
    (∀ e, (storeGalleryImage secret s password (some f) d uniq now iw mw).2 = .ok e →
      (storeGalleryImage secret s password (some f) d uniq now iw mw).1.galleryFile
        = .valid { images := ((readGallery s.galleryFile).images ++ [e]) } ∧
      e.filename ∈ (storeGalleryImage secret s password (some f) d uniq
        now iw mw).1.galleryDir) ∧
    (∀ err, (storeGalleryImage secret s password (some f) d uniq now iw mw).2
        = .err err →
      (storeGalleryImage secret s password (some f) d uniq now iw mw).1.galleryFile
        = s.galleryFile) ∧
    (jsStartsWith f.mimetype "image/" = true → iw = false →
      (storeGalleryImage secret s password (some f) d uniq now iw mw).2
        = .err .StorageError ∧
      (storeGalleryImage secret s password (some f) d uniq now iw mw).1 = s) ∧
    (∀ h, (storeHeroImage secret s password (some f) now iw mw).2 = .ok h →
      (storeHeroImage secret s password (some f) now iw mw).1.heroFile = .valid h ∧
      h.filename = some (heroName f.originalname) ∧
      heroName f.originalname
        ∈ (storeHeroImage secret s password (some f) now iw mw).1.heroDir) ∧
    (∀ err, (storeHeroImage secret s password (some f) now iw mw).2 = .err err →
      (storeHeroImage secret s password (some f) now iw mw).1.heroFile = s.heroFile) ∧
    (jsStartsWith f.mimetype "image/" = true → iw = false →
      (storeHeroImage secret s password (some f) now iw mw).2 = .err .StorageError ∧
      (storeHeroImage secret s password (some f) now iw mw).1 = s) := by
  refine ⟨?_, ?_, ?_, ?_, ?_, ?_⟩
  · intro e he
    simp only [storeGalleryImage] at he ⊢
    split_ifs at he ⊢ <;>
        simp_all [writeGallery, readGallery, insertFile_self_mem] <;>
      (subst he; simp [insertFile_self_mem])
  · intro err herr
    simp only [storeGalleryImage] at herr ⊢
    split_ifs at herr ⊢ <;> simp_all
  · intro hm hiw
    subst hiw
    simp [storeGalleryImage, hm]
  · intro h hh
    simp only [storeHeroImage] at hh ⊢
    split_ifs at hh ⊢ <;>
        simp_all [writeHeroBackground, insertFile_self_mem] <;>
      (subst hh; simp [insertFile_self_mem])
  · intro err herr
    simp only [storeHeroImage] at herr ⊢
    split_ifs at herr ⊢ <;> simp_all
  · intro hm hiw
    subst hiw
    simp [storeHeroImage, hm]

theorem uploads_atomic_witness :
    ((storeGalleryImage "pw" emptyState (some "pw") (some ⟨"image/jpeg", "a.jpg"⟩)
        none "7" 3 true true).1.galleryFile
      = .valid { images := [{ filename := "gallery-7.jpg", originalName := "a.jpg",
                              description := "", uploadedAt := 3 }] }) ∧
    ((storeGalleryImage "pw" fullGalleryState (some "pw") (some ⟨"image/jpeg", "a.jpg"⟩)
        none "7" 3 true true).1.galleryFile = fullGalleryState.galleryFile) ∧
    ((storeGalleryImage "pw" emptyState (some "pw") (some ⟨"image/jpeg", "a.jpg"⟩)
        none "7" 3 false true).2 = .err .StorageError ∧
     (storeGalleryImage "pw" emptyState (some "pw") (some ⟨"image/jpeg", "a.jpg"⟩)
        none "7" 3 false true).1 = emptyState) ∧
    ((storeHeroImage "pw" emptyState (some "pw") (some ⟨"image/png", "b.png"⟩)
        4 false true).2 = .err .StorageError ∧
     (storeHeroImage "pw" emptyState (some "pw") (some ⟨"image/png", "b.png"⟩)
        4 false true).1 = emptyState) :=
  ⟨((uploads_atomic "pw" emptyState (some "pw") ⟨"image/jpeg", "a.jpg"⟩ none "7" 3
      true true).1 _ (by decide)).1,
   (uploads_atomic "pw" fullGalleryState (some "pw") ⟨"image/jpeg", "a.jpg"⟩ none "7" 3
      true true).2.1 .GalleryFull (by decide),
   (uploads_atomic "pw" emptyState (some "pw") ⟨"image/jpeg", "a.jpg"⟩ none "7" 3
      false true).2.2.1 (by decide) rfl,
   (uploads_atomic "pw" emptyState (some "pw") ⟨"image/png", "b.png"⟩ none "7" 4
      false true).2.2.2.2.2 (by decide) rfl⟩
